import Mathlib

/-!
Shallow embedding of dissect-netwayste (src/dissect-netwayste/src/main.rs):
a live capture / filter / decode / report pipeline with round-robin
colorization of traffic sources.

External collaborators (pcap, etherparse, the bincode/netwayste codec,
circular_vec, tracing) are modelled at their interfaces: each frame arrives
already classified as the result of link-layer slicing, the protocol codec
is a function parameter, and log emission is a list of events tagged by
call site.
-/

/-- Models std::net::Ipv4Addr; only exact equality is used. -/
abbrev Ipv4Addr := Nat

/-- Key type of ip_color_map in main.rs: (Ipv4Addr, Option<u16>). -/
abbrev SourceKey := Ipv4Addr × Option Nat

/-- The colored::Color variants appearing in the tool's palette. -/
inductive Color where
  | Cyan
  | Yellow
  | Red
  | Magenta
  | Green
  | Blue
deriving DecidableEq, Repr

/-- Models the ColorOption enum of main.rs. -/
inductive ColorOption where
  | IPAndPort
  | OnlyIP
  | NoColor
deriving DecidableEq, Repr

/-- ColorOption::color_enabled of main.rs (lines 48-55). -/
def ColorOption.color_enabled : ColorOption → Bool
  | .NoColor => false
  | _ => true

/-- Models the clap-derived Args struct of main.rs (lines 14-39). -/
structure Args where
  verbose : Bool
  interface : Option String
  port : Nat
  color_option : ColorOption
  custom_bpf : Option String

/-- Models etherparse TransportSlice as read by main.rs: UDP with source and
destination ports, or any other transport. -/
inductive TransportSlice where
  | Udp (source_port dest_port : Nat)
  | NonUdp
deriving DecidableEq, Repr

/-- Models etherparse InternetSlice as read by main.rs: IPv4 with source and
destination address, or any other network layer. -/
inductive InternetSlice where
  | Ipv4 (source_addr dest_addr : Ipv4Addr)
  | NonIpv4
deriving DecidableEq, Repr

/-- The fields of etherparse SlicedPacket that main.rs reads. -/
structure SlicedPacket where
  transport : Option TransportSlice
  ip : Option InternetSlice
  payload : List Nat
deriving DecidableEq, Repr

/-- Models netwaystev2 protocol Packet opaquely: the pipeline only carries a
decoded value through to the report line, never inspects it. -/
structure Packet where
  val : Nat
deriving DecidableEq, Repr

/-- One tracing emission of the loop body, tagged by its call site in
main.rs: the info line for a matched packet (line 179/181), the error line
for failed link-layer slicing (line 138), and the two error lines for a
failed payload de-serialization (lines 186-187). -/
inductive LogEvent where
  | infoMatched (src_ip : Ipv4Addr) (src_port : Nat) (nw_packet : Packet)
      (message_color : Option Color)
  | errorEthDecode (err : String)
  | errorDeserialize (err : String)
  | errorPacketContents (payload : List Nat)
deriving DecidableEq, Repr

/-- Log severity of an emission. -/
inductive Severity where
  | info
  | error
deriving DecidableEq, Repr

/-- Severity of each call site: info! for matches, error! for failures. -/
def LogEvent.severity : LogEvent → Severity
  | .infoMatched .. => .info
  | _ => .error

/-- Models the circular_vec crate used for color_list: CircularVec::next
returns the element at the cursor and advances the cursor, wrapping at the
end of the vector. -/
def cvNext (palette : List Color) (cursor : Nat) : Color × Nat :=
  (palette.getD cursor Color.Cyan, (cursor + 1) % palette.length)

/-- The loop's mutable colorization state: ip_color_map (a HashMap, modelled
as an insertion-ordered association list) plus the CircularVec color_list
(its contents and cursor). -/
structure EngineState where
  map : List (SourceKey × Color)
  palette : List Color
  idx : Nat
deriving DecidableEq, Repr

/-- HashMap::get modelled on the association list. -/
def lookupKey (k : SourceKey) : List (SourceKey × Color) → Option Color
  | [] => none
  | (k', c) :: rest => if k = k' then some c else lookupKey k rest

/-- Lines 161-169 of main.rs: return the remembered color for a known key;
otherwise take the next palette color, record the assignment, and advance
the cursor. -/
def assignColor (st : EngineState) (k : SourceKey) : Color × EngineState :=
  match lookupKey k st.map with
  | some c => (c, st)
  | none =>
    let c := (cvNext st.palette st.idx).1
    (c, ⟨st.map ++ [(k, c)], st.palette, (cvNext st.palette st.idx).2⟩)

/-- Fresh state: empty ip_color_map, cursor at the start of the palette. -/
def initEngine (palette : List Color) : EngineState := ⟨[], palette, 0⟩

/-- The fixed palette of main.rs (lines 122-131). -/
def color_list : List Color :=
  [.Cyan, .Yellow, .Red, .Magenta, .Green, .Blue]

/-- Key construction of lines 156-159: source address plus, in IPAndPort
mode, the source port. -/
def sourceKey (opt : ColorOption) (src_ip : Ipv4Addr) (src_port : Nat) :
    SourceKey :=
  match opt with
  | .IPAndPort => (src_ip, some src_port)
  | _ => (src_ip, none)

/-- One iteration of the capture loop body (lines 134-193). The frame
arrives as the result of SlicedPacket::from_ethernet; deserialize is the
external bincode codec for netwayste packets. Returns the updated
colorization state and the log events emitted for this frame. -/
def processFrame (args : Args) (deserialize : List Nat → Except String Packet)
    (st : EngineState) (fr : Except String SlicedPacket) :
    EngineState × List LogEvent :=
  match fr with
  | .error err => (st, if args.verbose then [.errorEthDecode err] else [])
  | .ok ethernet =>
    match ethernet.transport with
    | some (.Udp src_port _dest_port) =>
      match ethernet.ip with
      | some (.Ipv4 src_ip _dest_addr) =>
        let key := sourceKey args.color_option src_ip src_port
        let message_color : Option Color :=
          if args.color_option.color_enabled then some (assignColor st key).1
          else none
        let st' :=
          if args.color_option.color_enabled then (assignColor st key).2
          else st
        match deserialize ethernet.payload with
        | .ok nw_packet =>
          (st', [.infoMatched src_ip src_port nw_packet message_color])
        | .error e =>
          (st', if args.verbose
                then [.errorDeserialize e, .errorPacketContents ethernet.payload]
                else [])
      | _ => (st, [])
    | _ => (st, [])

/-- The while-let capture loop over the frames the filtered capture
delivers, threading the colorization state and concatenating emissions. -/
def runFrames (args : Args) (deserialize : List Nat → Except String Packet) :
    EngineState → List (Except String SlicedPacket) →
    EngineState × List LogEvent
  | st, [] => (st, [])
  | st, fr :: rest =>
    let r := processFrame args deserialize st fr
    let r' := runFrames args deserialize r.1 rest
    (r'.1, r.2 ++ r'.2)

/-- Lines 100-108 of main.rs: the active filter string is the synthesized
default, or the custom one validated by compiling it against a dead
capture. compile is the external pcap backend; the code discards its error
value via ok(), so the expect message is the fixed string below. -/
def resolveFilter (port : Nat) (custom_bpf : Option String)
    (compile : String → Except String Unit) : Except String String :=
  match custom_bpf with
  | none => .ok ("udp port " ++ toString port)
  | some filter =>
    match compile filter with
    | .ok _ => .ok filter
    | .error _ => .error "Failed to compile custom-bpf"

/-- Startup filter resolution followed by the capture loop: a failed
custom-bpf compilation aborts before any frame is processed. -/
def runSession (args : Args) (compile : String → Except String Unit)
    (deserialize : List Nat → Except String Packet)
    (frames : List (Except String SlicedPacket)) :
    Except String (EngineState × List LogEvent) :=
  match resolveFilter args.port args.custom_bpf compile with
  | .error e => .error e
  | .ok _filter =>
    .ok (runFrames args deserialize (initEngine color_list) frames)

/-- Repeated lookup-or-assign over a bare key sequence (the Color
Assignment Engine in isolation). -/
def runEngine : EngineState → List SourceKey → EngineState
  | st, [] => st
  | st, k :: ks => runEngine (assignColor st k).2 ks

/-- Keys in first-seen order, continuing from an accumulator of keys
already seen. -/
def firstSeenFrom (acc : List SourceKey) : List SourceKey → List SourceKey
  | [] => acc
  | k :: ks =>
    if k ∈ acc then firstSeenFrom acc ks else firstSeenFrom (acc ++ [k]) ks

/-- Keys of a sequence in first-seen order. -/
def firstSeen (seq : List SourceKey) : List SourceKey := firstSeenFrom [] seq

/-- The association list that gives the j-th listed key the palette color at
index (start + j) modulo the palette size. -/
def tableFor (palette : List Color) : Nat → List SourceKey →
    List (SourceKey × Color)
  | _, [] => []
  | i, k :: ks =>
    (k, palette.getD (i % palette.length) Color.Cyan) ::
      tableFor palette (i + 1) ks

/-- C1 counterexample: with target port 12345 configured, a frame whose UDP
source and destination ports are both 9999 (neither equal to the target) is
still fully processed by the per-frame pipeline: it receives a color
assignment and, its payload decoding successfully, produces an info line. -/
theorem port_mismatch_still_processed :
    (9999 : Nat) ≠ 12345 ∧
    (Args.mk false none 12345 ColorOption.IPAndPort none).port = 12345 ∧
    (processFrame (Args.mk false none 12345 ColorOption.IPAndPort none)
        (fun _ => Except.ok ⟨0⟩) (initEngine color_list)
        (.ok ⟨some (.Udp 9999 9999), some (.Ipv4 7 8), [1]⟩)).2
      = [LogEvent.infoMatched 7 9999 ⟨0⟩ (some Color.Cyan)] ∧
    (processFrame (Args.mk false none 12345 ColorOption.IPAndPort none)
        (fun _ => Except.ok ⟨0⟩) (initEngine color_list)
        (.ok ⟨some (.Udp 9999 9999), some (.Ipv4 7 8), [1]⟩)).1.map
      = [((7, some 9999), Color.Cyan)] :=
  ⟨by decide, rfl, rfl, rfl⟩

/-- C1 amended: the per-frame pipeline performs no port comparison at all —
its behavior is completely independent of the configured target port, which
only influences the synthesized capture filter string. -/
theorem pipeline_ignores_port (verbose : Bool) (iface : Option String)
    (p p' : Nat) (co : ColorOption) (bpf : Option String)
    (deserialize : List Nat → Except String Packet) (st : EngineState)
    (fr : Except String SlicedPacket) :
    processFrame ⟨verbose, iface, p, co, bpf⟩ deserialize st fr
      = processFrame ⟨verbose, iface, p', co, bpf⟩ deserialize st fr := rfl

/-- C2 counterexample: with verbose enabled and a payload that fails decode,
the pipeline emits two error-severity lines (the decode error, then the raw
payload contents), not exactly one line naming both. -/
theorem decode_failure_two_lines :
    (Args.mk true none 12345 ColorOption.IPAndPort none).verbose = true ∧
    ((processFrame (Args.mk true none 12345 ColorOption.IPAndPort none)
        (fun _ => Except.error "deser") (initEngine color_list)
        (.ok ⟨some (.Udp 12345 777), some (.Ipv4 1 2), [9]⟩)).2).map
        LogEvent.severity
      = [Severity.error, Severity.error] ∧
    ((processFrame (Args.mk true none 12345 ColorOption.IPAndPort none)
        (fun _ => Except.error "deser") (initEngine color_list)
        (.ok ⟨some (.Udp 12345 777), some (.Ipv4 1 2), [9]⟩)).2).length ≠ 1 :=
  ⟨rfl, rfl, by decide⟩

/-- C2 amended: a frame whose UDP payload fails protocol decode produces no
output when verbose is false, and exactly two error-severity lines when
verbose is true — the first naming the decode error, the second the raw
payload bytes. -/
theorem decode_failure_logs (args : Args)
    (deserialize : List Nat → Except String Packet) (st : EngineState)
    (src_port dest_port : Nat) (src_ip dest_addr : Ipv4Addr)
    (payload : List Nat) (e : String)
    (hd : deserialize payload = .error e) :
    (processFrame args deserialize st
        (.ok ⟨some (.Udp src_port dest_port),
              some (.Ipv4 src_ip dest_addr), payload⟩)).2
      = (if args.verbose
         then [LogEvent.errorDeserialize e, LogEvent.errorPacketContents payload]
         else []) ∧
    ((if args.verbose
      then [LogEvent.errorDeserialize e, LogEvent.errorPacketContents payload]
      else ([] : List LogEvent))).map LogEvent.severity
      = (if args.verbose then [Severity.error, Severity.error] else []) := by
  constructor
  · simp [processFrame, hd]
  · cases args.verbose <;> rfl

/-- C2 amended witness at a concrete frame with verbose enabled. -/
theorem decode_failure_logs_witness :
    ((fun _ : List Nat => (Except.error "bad" : Except String Packet)) [3]
        = Except.error "bad") ∧
    (processFrame (Args.mk true none 12345 ColorOption.OnlyIP none)
        (fun _ => Except.error "bad") (initEngine color_list)
        (.ok ⟨some (.Udp 4 5), some (.Ipv4 6 7), [3]⟩)).2
      = (if (Args.mk true none 12345 ColorOption.OnlyIP none).verbose
         then [LogEvent.errorDeserialize "bad", LogEvent.errorPacketContents [3]]
         else []) :=
  ⟨rfl, (decode_failure_logs (Args.mk true none 12345 ColorOption.OnlyIP none)
      (fun _ => Except.error "bad") (initEngine color_list)
      4 5 6 7 [3] "bad" rfl).1⟩

/-- C5: with palette Cyan, Yellow, Red and frames arriving from sources
A, B, A again, C, D (source ports all 12345), the assigned colors are
A Cyan, B Yellow, A again Cyan, C Red, and D Cyan by wraparound. -/
theorem concrete_color_scenario :
    (runFrames (Args.mk false none 12345 ColorOption.IPAndPort none)
        (fun _ => Except.ok ⟨0⟩)
        (initEngine [Color.Cyan, Color.Yellow, Color.Red])
        [ .ok ⟨some (.Udp 12345 551), some (.Ipv4 1 9), [0]⟩,
          .ok ⟨some (.Udp 12345 552), some (.Ipv4 2 9), [0]⟩,
          .ok ⟨some (.Udp 12345 553), some (.Ipv4 1 9), [0]⟩,
          .ok ⟨some (.Udp 12345 554), some (.Ipv4 3 9), [0]⟩,
          .ok ⟨some (.Udp 12345 555), some (.Ipv4 4 9), [0]⟩ ]).2
      = [ LogEvent.infoMatched 1 12345 ⟨0⟩ (some Color.Cyan),
          LogEvent.infoMatched 2 12345 ⟨0⟩ (some Color.Yellow),
          LogEvent.infoMatched 1 12345 ⟨0⟩ (some Color.Cyan),
          LogEvent.infoMatched 3 12345 ⟨0⟩ (some Color.Red),
          LogEvent.infoMatched 4 12345 ⟨0⟩ (some Color.Cyan) ] := rfl

/-- C6 counterexample: two different rejected expressions with two different
backend rejection reasons produce the identical fixed abort message, so the
message reports neither the offending expression nor the reason. -/
theorem filter_error_message_uninformative :
    resolveFilter 12345 (some "bad-expr-one") (fun _ => Except.error "reason one")
      = Except.error "Failed to compile custom-bpf" ∧
    resolveFilter 12345 (some "bad-expr-two") (fun _ => Except.error "reason two")
      = Except.error "Failed to compile custom-bpf" ∧
    "bad-expr-one" ≠ "bad-expr-two" ∧
    "reason one" ≠ "reason two" :=
  ⟨rfl, rfl, by decide, by decide⟩

/-- C6 amended: a custom filter expression is validated by compiling it
against a detached capture context (of hard-coded Ethernet link type); if
compilation fails, the run aborts at startup before any frame is processed,
with the fixed message that names neither the expression nor the reason. -/
theorem custom_bpf_failure_fatal (args : Args)
    (compile : String → Except String Unit)
    (deserialize : List Nat → Except String Packet)
    (frames : List (Except String SlicedPacket)) (f r : String)
    (hb : args.custom_bpf = some f) (hc : compile f = Except.error r) :
    runSession args compile deserialize frames
      = Except.error "Failed to compile custom-bpf" := by
  simp [runSession, resolveFilter, hb, hc]

/-- C6 amended witness: a concrete failing expression aborts the session. -/
theorem custom_bpf_failure_fatal_witness :
    (Args.mk false none 12345 ColorOption.IPAndPort (some "bogus(")).custom_bpf
      = some "bogus(" ∧
    ((fun _ : String => (Except.error "syntax error" : Except String Unit))
        "bogus(" = Except.error "syntax error") ∧
    runSession (Args.mk false none 12345 ColorOption.IPAndPort (some "bogus("))
        (fun _ => Except.error "syntax error") (fun _ => Except.error "x")
        [.ok ⟨some (.Udp 1 2), some (.Ipv4 3 4), [5]⟩]
      = Except.error "Failed to compile custom-bpf" :=
  ⟨rfl, rfl,
    custom_bpf_failure_fatal
      (Args.mk false none 12345 ColorOption.IPAndPort (some "bogus("))
      (fun _ => Except.error "syntax error") (fun _ => Except.error "x")
      [.ok ⟨some (.Udp 1 2), some (.Ipv4 3 4), [5]⟩]
      "bogus(" "syntax error" rfl rfl⟩

/-- C7: a frame whose UDP payload decodes successfully always produces
exactly one informational line, for every verbose and color setting. -/
theorem decode_success_one_info_line (args : Args)
    (deserialize : List Nat → Except String Packet) (st : EngineState)
    (src_port dest_port : Nat) (src_ip dest_addr : Ipv4Addr)
    (payload : List Nat) (pkt : Packet)
    (hd : deserialize payload = .ok pkt) :
    ((processFrame args deserialize st
        (.ok ⟨some (.Udp src_port dest_port),
              some (.Ipv4 src_ip dest_addr), payload⟩)).2).map
        LogEvent.severity
      = [Severity.info] := by
  simp [processFrame, hd, LogEvent.severity]

/-- C7 witness at a concrete frame with verbose disabled and color off. -/
theorem decode_success_one_info_line_witness :
    ((fun _ : List Nat => (Except.ok ⟨2⟩ : Except String Packet)) [8]
        = Except.ok ⟨2⟩) ∧
    ((processFrame (Args.mk false none 12345 ColorOption.NoColor none)
        (fun _ => Except.ok ⟨2⟩) (initEngine color_list)
        (.ok ⟨some (.Udp 10 11), some (.Ipv4 12 13), [8]⟩)).2).map
        LogEvent.severity
      = [Severity.info] :=
  ⟨rfl, decode_success_one_info_line
      (Args.mk false none 12345 ColorOption.NoColor none)
      (fun _ => Except.ok ⟨2⟩) (initEngine color_list)
      10 11 12 13 [8] ⟨2⟩ rfl⟩

/-- C8: a frame failing link-layer slicing yields no output when verbose is
false and exactly one error-severity line when verbose is true, leaves the
colorization state untouched, and the loop continues with the remaining
frames — the failure is never fatal. -/
theorem link_decode_failure_nonfatal (args : Args)
    (deserialize : List Nat → Except String Packet) (st : EngineState)
    (err : String) (rest : List (Except String SlicedPacket)) :
    runFrames args deserialize st (.error err :: rest)
      = ((runFrames args deserialize st rest).1,
         (if args.verbose then [LogEvent.errorEthDecode err] else [])
           ++ (runFrames args deserialize st rest).2) ∧
    ((if args.verbose then [LogEvent.errorEthDecode err] else ([] : List LogEvent))).map
        LogEvent.severity
      = (if args.verbose then [Severity.error] else []) := by
  constructor
  · rfl
  · cases args.verbose <;> rfl

/-- C10: the per-frame pipeline's result — color assignment, state update
and output — is identical for two frames differing only in destination
address and destination port: the SourceKey and the report line are built
solely from the source address and source port. -/
theorem color_ignores_destination (args : Args)
    (deserialize : List Nat → Except String Packet) (st : EngineState)
    (src_port dest_port dest_port' : Nat)
    (src_ip dest_addr dest_addr' : Ipv4Addr) (payload : List Nat) :
    processFrame args deserialize st
        (.ok ⟨some (.Udp src_port dest_port),
              some (.Ipv4 src_ip dest_addr), payload⟩)
      = processFrame args deserialize st
        (.ok ⟨some (.Udp src_port dest_port'),
              some (.Ipv4 src_ip dest_addr'), payload⟩) := rfl

/-- C9: with color enabled and a not-yet-seen SourceKey, processing an
IPv4/UDP frame appends the key with the color at the cursor to the
ColorTable and advances the cursor — for every codec, in particular when
the payload later fails decode, and with no output when verbose is false. -/
theorem color_recorded_before_decode (args : Args)
    (deserialize : List Nat → Except String Packet) (st : EngineState)
    (src_port dest_port : Nat) (src_ip dest_addr : Ipv4Addr)
    (payload : List Nat)
    (hc : args.color_option.color_enabled = true)
    (hfresh : lookupKey (sourceKey args.color_option src_ip src_port) st.map
        = none) :
    (processFrame args deserialize st
        (.ok ⟨some (.Udp src_port dest_port),
              some (.Ipv4 src_ip dest_addr), payload⟩)).1.map
      = st.map ++ [(sourceKey args.color_option src_ip src_port,
                    st.palette.getD st.idx Color.Cyan)] ∧
    (processFrame args deserialize st
        (.ok ⟨some (.Udp src_port dest_port),
              some (.Ipv4 src_ip dest_addr), payload⟩)).1.idx
      = (st.idx + 1) % st.palette.length := by
  cases hd : deserialize payload <;>
    simp [processFrame, hd, hc, assignColor, hfresh, cvNext]

/-- C9 witness: a concrete fresh-key frame whose payload fails decode still
grows the ColorTable and advances the cursor. -/
theorem color_recorded_before_decode_witness :
    ((Args.mk false none 12345 ColorOption.IPAndPort none).color_option.color_enabled
        = true) ∧
    (lookupKey (sourceKey ColorOption.IPAndPort 5 9) (initEngine color_list).map
        = none) ∧
    (processFrame (Args.mk false none 12345 ColorOption.IPAndPort none)
        (fun _ => Except.error "x") (initEngine color_list)
        (.ok ⟨some (.Udp 9 10), some (.Ipv4 5 6), [1]⟩)).1.map
      = (initEngine color_list).map
          ++ [(sourceKey ColorOption.IPAndPort 5 9,
               (initEngine color_list).palette.getD (initEngine color_list).idx
                 Color.Cyan)] :=
  ⟨rfl, rfl,
    (color_recorded_before_decode
      (Args.mk false none 12345 ColorOption.IPAndPort none)
      (fun _ => Except.error "x") (initEngine color_list)
      9 10 5 6 [1] rfl rfl).1⟩

lemma keysOf_tableFor (P : List Color) (i : Nat) (ks : List SourceKey) :
    (tableFor P i ks).map Prod.fst = ks := by
  induction ks generalizing i with
  | nil => rfl
  | cons k ks ih => simp [tableFor, ih]

lemma lookupKey_eq_none (k : SourceKey) (m : List (SourceKey × Color)) :
    lookupKey k m = none ↔ k ∉ m.map Prod.fst := by
  induction m with
  | nil => simp [lookupKey]
  | cons p rest ih =>
    obtain ⟨k', c⟩ := p
    by_cases h : k = k' <;> simp [lookupKey, h, ih]

lemma tableFor_append (P : List Color) (i : Nat) (ks : List SourceKey)
    (k : SourceKey) :
    tableFor P i (ks ++ [k])
      = tableFor P i ks
          ++ [(k, P.getD ((i + ks.length) % P.length) Color.Cyan)] := by
  induction ks generalizing i with
  | nil => simp [tableFor]
  | cons k' ks ih =>
    have harith : i + 1 + ks.length = i + (ks.length + 1) := by omega
    simp [tableFor, ih, harith]

lemma runEngine_tableFor (P : List Color) (seq ks0 : List SourceKey) :
    runEngine ⟨tableFor P 0 ks0, P, ks0.length % P.length⟩ seq
      = ⟨tableFor P 0 (firstSeenFrom ks0 seq), P,
         (firstSeenFrom ks0 seq).length % P.length⟩ := by
  induction seq generalizing ks0 with
  | nil => simp [runEngine, firstSeenFrom]
  | cons k seq ih =>
    by_cases hk : k ∈ ks0
    · have hl : lookupKey k (tableFor P 0 ks0) ≠ none := by
        intro h
        rw [lookupKey_eq_none, keysOf_tableFor] at h
        exact h hk
      obtain ⟨c, hc⟩ := Option.ne_none_iff_exists'.mp hl
      have hstep : assignColor ⟨tableFor P 0 ks0, P, ks0.length % P.length⟩ k
          = (c, ⟨tableFor P 0 ks0, P, ks0.length % P.length⟩) := by
        simp [assignColor, hc]
      rw [runEngine, hstep]
      simpa [firstSeenFrom, hk] using ih ks0
    · have hl : lookupKey k (tableFor P 0 ks0) = none := by
        rw [lookupKey_eq_none, keysOf_tableFor]
        exact hk
      have hstep : (assignColor ⟨tableFor P 0 ks0, P, ks0.length % P.length⟩ k).2
          = ⟨tableFor P 0 (ks0 ++ [k]), P, (ks0 ++ [k]).length % P.length⟩ := by
        have hmap : tableFor P 0 (ks0 ++ [k])
            = tableFor P 0 ks0
                ++ [(k, P.getD (ks0.length % P.length) Color.Cyan)] := by
          rw [tableFor_append]
          simp
        have hidx : (ks0 ++ [k]).length % P.length
            = (ks0.length % P.length + 1) % P.length := by
          simp [Nat.mod_add_mod]
        simp [assignColor, hl, cvNext, hmap, hidx]
      rw [runEngine, hstep, ih]
      simp [firstSeenFrom, hk]

lemma nodup_firstSeenFrom (seq : List SourceKey) :
    ∀ acc : List SourceKey, acc.Nodup → (firstSeenFrom acc seq).Nodup := by
  induction seq with
  | nil => intro acc h; exact h
  | cons k seq ih =>
    intro acc h
    by_cases hk : k ∈ acc
    · simpa [firstSeenFrom, hk] using ih acc h
    · have hnd : (acc ++ [k]).Nodup := by
        rw [List.nodup_append]
        refine ⟨h, List.nodup_singleton k, ?_⟩
        intro a ha hmem
        rw [List.mem_singleton] at hmem
        exact hk (hmem ▸ ha)
      simpa [firstSeenFrom, hk] using ih (acc ++ [k]) hnd

lemma getD_mem_of_lt (l : List SourceKey) (j : Nat) (d : SourceKey)
    (h : j < l.length) : l.getD j d ∈ l := by
  induction l generalizing j with
  | nil => simp at h
  | cons a l ih =>
    cases j with
    | zero => simp
    | succ j =>
      simp only [List.getD_cons_succ]
      exact List.mem_cons_of_mem _ (ih j (by simpa using h))

lemma lookupKey_tableFor (P : List Color) (ks : List SourceKey)
    (hnd : ks.Nodup) (i j : Nat) (hj : j < ks.length) :
    lookupKey (ks.getD j (0, none)) (tableFor P i ks)
      = some (P.getD ((i + j) % P.length) Color.Cyan) := by
  induction ks generalizing i j with
  | nil => simp at hj
  | cons k ks ih =>
    cases j with
    | zero => simp [tableFor, lookupKey]
    | succ j =>
      have hj' : j < ks.length := by simpa using hj
      have hne : ks.getD j (0, none) ≠ k := by
        intro he
        exact (List.nodup_cons.mp hnd).1 (he ▸ getD_mem_of_lt ks j _ hj')
      have harith : i + 1 + j = i + (j + 1) := by omega
      simp only [List.getD_cons_succ, tableFor, lookupKey, if_neg hne]
      rw [ih (List.nodup_cons.mp hnd).2 (i + 1) j hj', harith]

/-- C3: for any key sequence, the j-th key in first-seen order (0-indexed,
interleaved with arbitrary repeat lookups of already-known keys) ends up
assigned the palette color at index j modulo the palette size; in
particular the key after a full palette cycle receives the first color
again. -/
theorem round_robin_first_seen (P : List Color) (seq : List SourceKey)
    (j : Nat) (hj : j < (firstSeen seq).length) :
    lookupKey ((firstSeen seq).getD j (0, none))
        (runEngine (initEngine P) seq).map
      = some (P.getD (j % P.length) Color.Cyan) := by
  have h := runEngine_tableFor P seq []
  have h0 : (⟨tableFor P 0 [], P, ([] : List SourceKey).length % P.length⟩ :
      EngineState) = initEngine P := by
    simp [initEngine, tableFor]
  rw [h0] at h
  rw [h]
  have hnd : (firstSeen seq).Nodup := nodup_firstSeenFrom seq [] List.nodup_nil
  simpa [firstSeen] using lookupKey_tableFor P (firstSeen seq) hnd 0 j hj

/-- C3 witness: on a two-color palette, the third distinct key of the
sequence receives the palette's first color again (wraparound), with a
repeat lookup interleaved. -/
theorem round_robin_first_seen_witness :
    2 < (firstSeen [(1, none), (2, none), (1, none), (3, none)]).length ∧
    lookupKey ((firstSeen [(1, none), (2, none), (1, none), (3, none)]).getD 2
        (0, none))
        (runEngine (initEngine [Color.Cyan, Color.Yellow])
          [(1, none), (2, none), (1, none), (3, none)]).map
      = some ([Color.Cyan, Color.Yellow].getD (2 % 2) Color.Cyan) :=
  ⟨by decide,
    round_robin_first_seen [Color.Cyan, Color.Yellow]
      [(1, none), (2, none), (1, none), (3, none)] 2 (by decide)⟩

lemma lookupKey_append_some (k : SourceKey) (m l : List (SourceKey × Color))
    (c : Color) (h : lookupKey k m = some c) :
    lookupKey k (m ++ l) = some c := by
  induction m with
  | nil => simp [lookupKey] at h
  | cons p rest ih =>
    obtain ⟨k', c'⟩ := p
    by_cases he : k = k'
    · simp [lookupKey, he] at h ⊢
      exact h
    · simp [lookupKey, he] at h ⊢
      exact ih h

lemma assignColor_preserves (k : SourceKey) (c : Color) (st : EngineState)
    (k' : SourceKey) (h : lookupKey k st.map = some c) :
    lookupKey k (assignColor st k').2.map = some c := by
  unfold assignColor
  cases hl : lookupKey k' st.map with
  | some c' => simpa using h
  | none => simpa using lookupKey_append_some k st.map _ c h

lemma runEngine_preserves (k : SourceKey) (c : Color)
    (seq : List SourceKey) :
    ∀ st : EngineState, lookupKey k st.map = some c →
      lookupKey k (runEngine st seq).map = some c := by
  induction seq with
  | nil => intro st h; simpa [runEngine] using h
  | cons k' seq ih =>
    intro st h
    exact ih _ (assignColor_preserves k c st k' h)

/-- C4: a key with an existing assignment keeps it for the rest of the run:
looking it up again returns the same color and leaves the whole state —
ColorTable and palette cursor — unchanged, and the binding survives any
further sequence of lookups of arbitrary keys. -/
theorem color_assignment_stable (st : EngineState) (k : SourceKey)
    (c : Color) (h : lookupKey k st.map = some c) :
    assignColor st k = (c, st) ∧
      ∀ seq : List SourceKey, lookupKey k (runEngine st seq).map = some c := by
  constructor
  · simp [assignColor, h]
  · intro seq
    exact runEngine_preserves k c seq st h

/-- C4 witness: a concrete known key is returned unchanged and survives two
further lookups of other keys. -/
theorem color_assignment_stable_witness :
    lookupKey (5, some 7)
        (EngineState.mk [((5, some 7), Color.Red)] color_list 1).map
      = some Color.Red ∧
    assignColor (EngineState.mk [((5, some 7), Color.Red)] color_list 1)
        (5, some 7)
      = (Color.Red, EngineState.mk [((5, some 7), Color.Red)] color_list 1) ∧
    lookupKey (5, some 7)
        (runEngine (EngineState.mk [((5, some 7), Color.Red)] color_list 1)
          [(6, none), (5, some 7), (8, some 2)]).map
      = some Color.Red :=
  ⟨rfl,
    (color_assignment_stable
      (EngineState.mk [((5, some 7), Color.Red)] color_list 1)
      (5, some 7) Color.Red rfl).1,
    (color_assignment_stable
      (EngineState.mk [((5, some 7), Color.Red)] color_list 1)
      (5, some 7) Color.Red rfl).2 [(6, none), (5, some 7), (8, some 2)]⟩
